import Mathlib

/-!
# Verification of the `pattern_matching` engine

Shallow embedding of the pattern-matching engine of the repository
(`pattern_matching/pattern_engine.py` and `pattern_matching/match_args_data.py`)
together with proofs about the claims of the specification.

Modelling conventions:
* Python runtime values are the inductive type `Val`; Python types (class
  objects) are the structure `PyType`, compared structurally (the model has no
  object identity, so two structurally equal types are the same type).
* A raised Python exception is `Except.error (e : PyErr)`; a match failure is
  the `Optional`-style `Option` inside `Except.ok`, exactly mirroring the
  Python signature `match(...) -> Optional[dict]` with exceptions propagating.
* Python `dict`s preserve insertion order; they are modelled as association
  lists together with the write-in-place `dictSet`/`dictUpdate` operations.
-/

/-- A Python class object, as far as the engine inspects one.  The fields
record exactly the information that `match_args_data.py` reads off a type:
its `__match_args__` attribute (if any), its qualified name (looked up in
`known_cases`), and whether either of the two registered special handlers
(`is_dataclass`, `_is_namedtuple`) accepts it, together with the field tuple
the corresponding generator would return. -/
structure PyType where
  name : String
  /-- `module_qualname(t)`, i.e. the string `t.__module__ + "." + t.__qualname__`. -/
  qualname : String
  /-- `t.__match_args__` when the attribute exists, `none` when reading it
  raises `AttributeError`. -/
  matchArgsAttr : Option (List String)
  /-- whether `dataclasses.is_dataclass(t)` holds -/
  isDataclass : Bool
  /-- `tuple(f.name for f in fields(t) if f.init)` for a dataclass -/
  dataclassInitFields : List String
  /-- whether `_is_namedtuple(t)` holds -/
  isNamedtuple : Bool
  /-- `t._fields` for a namedtuple -/
  ntFields : List String
deriving DecidableEq, Repr

/-- A Python runtime value, restricted to the kinds of data the engine
manipulates: `None`, booleans, integers, text strings, byte strings, lists,
tuples, dicts (insertion-ordered association lists), class instances with
their attribute dictionary, and class objects themselves. -/
inductive Val where
  | vNone : Val
  | vBool (b : Bool) : Val
  | vInt (n : Int) : Val
  | vStr (s : List Char) : Val
  | vBytes (bs : List Nat) : Val
  | vList (xs : List Val) : Val
  | vTuple (xs : List Val) : Val
  | vDict (entries : List (Val × Val)) : Val
  | vObj (ty : PyType) (attrs : List (String × Val)) : Val
  | vType (ty : PyType) : Val

/-- Raised Python exceptions, by class.  `syntaxError` is Python's
`SyntaxError`; it is present so that statements about the *kind* of a raised
error can be expressed (the engine itself never raises it). -/
inductive PyErr where
  | typeError (msg : String)
  | valueError (msg : String)
  | assertionError
  | attributeError
  | indexError
  | notImplementedError
  | syntaxError (msg : String)
deriving DecidableEq, Repr

/-! ## Python value equality (`==`)

Used by `PtConstant.match` (`self.calc_value(get) == value`) and by dict key
lookup.  Mirrors Python semantics on the modelled universe: `bool` compares
equal to the corresponding `int`, lists/tuples compare elementwise (but a
list never equals a tuple), dicts compare by key/value content irrespective
of insertion order, class objects compare by identity (distinct modelled
instances are distinct objects, hence unequal), and type objects compare by
identity (structural equality in this identity-free model). -/

mutual

def pyEq : Val → Val → Bool
  | .vNone, .vNone => true
  | .vBool a, .vBool b => a == b
  | .vBool a, .vInt b => (if a then (1 : Int) else 0) == b
  | .vInt a, .vBool b => a == (if b then (1 : Int) else 0)
  | .vInt a, .vInt b => a == b
  | .vStr a, .vStr b => a == b
  | .vBytes a, .vBytes b => a == b
  | .vList a, .vList b => pyEqList a b
  | .vTuple a, .vTuple b => pyEqList a b
  | .vDict a, .vDict b => a.length == b.length && pyEqDictSub a b
  | .vType a, .vType b => a == b
  | _, _ => false

def pyEqList : List Val → List Val → Bool
  | [], [] => true
  | x :: xs, y :: ys => pyEq x y && pyEqList xs ys
  | _, _ => false

/-- every entry of the first dict occurs (up to `pyEq`) in the second -/
def pyEqDictSub : List (Val × Val) → List (Val × Val) → Bool
  | [], _ => true
  | (k, v) :: rest, b => pyEqEntryIn k v b && pyEqDictSub rest b

def pyEqEntryIn : Val → Val → List (Val × Val) → Bool
  | _, _, [] => false
  | k, v, (k', v') :: rest => if pyEq k k' then pyEq v v' else pyEqEntryIn k v rest

end

/-! ## Bindings (Python dicts from names to values) -/

/-- The result of a successful match: an insertion-ordered `dict` from capture
names to values. -/
abbrev Bindings := List (String × Val)

/-- Python `d[k] = v`: overwrite in place if the key is present (keeping its
position), append otherwise. -/
def dictSet (d : Bindings) (k : String) (v : Val) : Bindings :=
  match d with
  | [] => [(k, v)]
  | (k', v') :: rest => if k' = k then (k', v) :: rest else (k', v') :: dictSet rest k v

/-- Python `d.update(other)`: `dictSet` every entry of `other` in order. -/
def dictUpdate (d : Bindings) (other : Bindings) : Bindings :=
  match other with
  | [] => d
  | (k, v) :: rest => dictUpdate (dictSet d k v) rest

/-- Lookup in a `str`-keyed attribute dictionary (Python `getattr` on the
modelled instance attributes). -/
def lookupStr (attrs : List (String × Val)) (n : String) : Option Val :=
  match attrs with
  | [] => none
  | (k, v) :: rest => if k = n then some v else lookupStr rest n

/-- Python dict lookup with `pyEq` key comparison; `none` both for
`key not in value` and for the `_missing_marker` default of `value.get`
(the two coincide on actual dicts). -/
def dictLookupPy (entries : List (Val × Val)) (key : Val) : Option Val :=
  match entries with
  | [] => none
  | (k, v) :: rest => if pyEq key k then some v else dictLookupPy rest key

/-! ## Python attribute access and `isinstance` -/

/-- `getattr(v, n)` on the modelled universe: instance attributes come from
the instance's attribute dict; no other modelled value exposes attributes
relevant to the engine, so attribute access on them raises
`AttributeError` (returns `none` here). -/
def getattrVal (v : Val) (n : String) : Option Val :=
  match v with
  | .vObj _ attrs => lookupStr attrs n
  | _ => none

/-- The built-in types appearing in `builtin_match_args`. -/
def pyListType : PyType := ⟨"list", "builtins.list", none, false, [], false, []⟩

def pySetType : PyType := ⟨"set", "builtins.set", none, false, [], false, []⟩

def pyDictType : PyType := ⟨"dict", "builtins.dict", none, false, [], false, []⟩

def pyFrozensetType : PyType := ⟨"frozenset", "builtins.frozenset", none, false, [], false, []⟩

def pyTupleType : PyType := ⟨"tuple", "builtins.tuple", none, false, [], false, []⟩

def pyBoolType : PyType := ⟨"bool", "builtins.bool", none, false, [], false, []⟩

def pyFloatType : PyType := ⟨"float", "builtins.float", none, false, [], false, []⟩

def pyIntType : PyType := ⟨"int", "builtins.int", none, false, [], false, []⟩

def pyStrType : PyType := ⟨"str", "builtins.str", none, false, [], false, []⟩

def pyBytesType : PyType := ⟨"bytes", "builtins.bytes", none, false, [], false, []⟩

def pyBytearrayType : PyType := ⟨"bytearray", "builtins.bytearray", none, false, [], false, []⟩

def pyNoneType : PyType := ⟨"NoneType", "builtins.NoneType", none, false, [], false, []⟩

def pyTypeType : PyType := ⟨"type", "builtins.type", none, false, [], false, []⟩

/-- Python `isinstance(v, t)` on the modelled universe (exact-type check;
no modelled type has subclasses). -/
def pyIsinstance (v : Val) (t : PyType) : Bool :=
  match v with
  | .vNone => decide (t = pyNoneType)
  | .vBool _ => decide (t = pyBoolType)
  | .vInt _ => decide (t = pyIntType)
  | .vStr _ => decide (t = pyStrType)
  | .vBytes _ => decide (t = pyBytesType)
  | .vList _ => decide (t = pyListType)
  | .vTuple _ => decide (t = pyTupleType)
  | .vDict _ => decide (t = pyDictType)
  | .vObj ty _ => decide (t = ty)
  | .vType _ => decide (t = pyTypeType)

/-- `isinstance(value, collections.abc.Sequence)`: true for lists, tuples,
text strings and byte strings (the modelled registered Sequence types;
dicts and sets are not Sequences, and no modelled object type registers
as one). -/
def pySeqIsinstance (v : Val) : Bool :=
  match v with
  | .vList _ => true
  | .vTuple _ => true
  | .vStr _ => true
  | .vBytes _ => true
  | _ => false

/-- The element sequence obtained by iterating a Python Sequence: iterating a
`str` yields one-character strings, iterating `bytes` yields integers. -/
def pySeqElems (v : Val) : List Val :=
  match v with
  | .vList xs => xs
  | .vTuple xs => xs
  | .vStr cs => cs.map (fun c => .vStr [c])
  | .vBytes bs => bs.map (fun b => .vInt (Int.ofNat b))
  | _ => []

/-- Python slicing `v[i:j]` with `0 ≤ i ≤ j ≤ len(v)` (the only shape the
engine uses); slicing preserves the container type. -/
def pySlice (v : Val) (i j : Nat) : Val :=
  match v with
  | .vList xs => .vList ((xs.drop i).take (j - i))
  | .vTuple xs => .vTuple ((xs.drop i).take (j - i))
  | .vStr cs => .vStr ((cs.drop i).take (j - i))
  | .vBytes bs => .vBytes ((bs.drop i).take (j - i))
  | _ => v

/-! ## The field-resolution registry (`match_args_data.py`) -/

/-- `special_attributes` has the single entry `"<self>" : lambda x: x`. -/
def isSpecialAttribute (n : String) : Bool := n == "<self>"

/-- The `builtin_match_args` table: each built-in container/primitive type
maps to the single sentinel field `("<self>",)`. -/
def builtin_match_args (t : PyType) : Option (List String) :=
  if t = pyListType ∨ t = pySetType ∨ t = pyDictType ∨ t = pyFrozensetType ∨
      t = pyTupleType ∨ t = pyBoolType ∨ t = pyFloatType ∨ t = pyIntType ∨
      t = pyStrType ∨ t = pyBytesType ∨ t = pyBytearrayType then
    some ["<self>"]
  else
    none

/-- `known_cases` after the two module-level `register` calls
(`lark.tree.Tree` and `lark.lexer.Token`). -/
def known_cases (qn : String) : Option (List String) :=
  if qn = "lark.tree.Tree" then some ["data", "children"]
  else if qn = "lark.lexer.Token" then some ["type", "value"]
  else none

/-- `_match_args_from_dataclass(t)` -/
def match_args_from_dataclass (t : PyType) : List String := t.dataclassInitFields

/-- `_match_args_from_namedtuple(t)` -/
def match_args_from_namedtuple (t : PyType) : List String := t.ntFields

/-- `__match_args__(t)` of `match_args_data.py`: try the type's own
`__match_args__` attribute, then the built-in table, then `known_cases`
keyed by qualified name, then the registered special handlers in
registration order (`is_dataclass`, then `_is_namedtuple`), else `()`. -/
def dunderMatchArgs (t : PyType) : List String :=
  match t.matchArgsAttr with
  | some ma => ma
  | none =>
    match builtin_match_args t with
    | some ma => ma
    | none =>
      match known_cases t.qualname with
      | some ma => ma
      | none =>
        if t.isDataclass then match_args_from_dataclass t
        else if t.isNamedtuple then match_args_from_namedtuple t
        else []

/-! ## Patterns (the compiled pattern tree of `pattern_engine.py`) -/

/-- The `PtConstant` subtree: `PtLiteral(value)` or `PtValue(attributes)`. -/
inductive PtConst where
  | lit (value : Val)
  | value (attributes : List String)

/-- The compiled, immutable pattern tree.  Constructor per `Pt*` dataclass;
`PtClass.cls` is the attribute chain of the `PtValue` it stores. -/
inductive Pattern where
  | ptCaptureAs (base : Pattern) (name : String)
  | ptCapture (name : String)
  | ptOr (options : List Pattern)
  | ptConst (c : PtConst)
  | ptClass (cls : List String) (args : List Pattern) (kwargs : List (String × Pattern))
  | ptFixedSequence (elements : List Pattern)
  | ptMapping (elements : List (PtConst × Pattern)) (star : Option String)
  | ptVariableSequence (pre : List Pattern) (star : String) (post : List Pattern)

/-- `PtValue.calc_value`: resolve the first name through `get`, then chase the
remaining names with `getattr` (an absent attribute raises
`AttributeError`, which propagates). -/
def getattrChain (v : Val) (names : List String) : Except PyErr Val :=
  match names with
  | [] => .ok v
  | n :: rest =>
    match getattrVal v n with
    | none => .error .attributeError
    | some v' => getattrChain v' rest

/-- `PtConstant.calc_value(get)`. -/
def calcValue (c : PtConst) (get : String → Val) : Except PyErr Val :=
  match c with
  | .lit x => .ok x
  | .value attributes =>
    match attributes with
    | [] => .error .indexError
    | a :: rest => getattrChain (get a) rest

/-- Membership of a runtime dict key in the `used` set of `PtMapping.match`.
The code executes `used.add(kp)` — it inserts the key *pattern object*, not
the computed key — so the later containment test `k not in used` compares a
runtime value with frozen-dataclass `PtConstant` instances.  In Python such a
cross-class comparison is always unequal (neither class implements equality
against the other), hence the membership is always `false`. -/
def valEqKeyPattern (_ : Val) (_ : PtConst) : Bool := false

/-- `k in used` for the star-capture filter of `PtMapping.match`. -/
def keyInUsed (k : Val) (used : List PtConst) : Bool :=
  used.any (fun kp => valEqKeyPattern k kp)

/-! ## `match_args_and_kwargs` (`match_args_data.py`) -/

/-- The loop `for n, a in zip(ma, args)` of `match_args_and_kwargs`: check each
positionally-implied name against the `taken` set (initially the keyword
names), raising `TypeError("Duplicate keyword: ...")` on a hit, and collect
the `(name, arg)` pairs in order. -/
def buildNamed (l : List (String × Pattern)) (taken : List String) :
    Except PyErr (List (String × Pattern)) :=
  match l with
  | [] => .ok []
  | (n, a) :: rest =>
    if taken.contains n then .error (.typeError "Duplicate keyword")
    else
      match buildNamed rest (n :: taken) with
      | .error e => .error e
      | .ok out => .ok ((n, a) :: out)

/-- The loop `for n, k in (named_args + list(kwargs))` of
`match_args_and_kwargs`: read each field off the instance (the `"<self>"`
sentinel reads the instance itself); an `AttributeError` makes the whole
resolution return `None` (match failure). -/
def buildOut (l : List (String × Pattern)) (val : Val) :
    Option (List (Pattern × Val)) :=
  match l with
  | [] => some []
  | (n, k) :: rest =>
    match (if isSpecialAttribute n then some val else getattrVal val n) with
    | none => none
    | some v =>
      match buildOut rest val with
      | none => none
      | some out => some ((k, v) :: out)

/-- `match_args_and_kwargs(t, val, args, kwargs)`: PEP-634-style pairing of
positional and keyword sub-patterns with the instance's field values.
The Python `assert isinstance(ma, (list, tuple))` always holds in the model
(field lists are `List String`); the `TypeError` message in the source also
interpolates the offending type and counts. -/
def match_args_and_kwargs (t : PyType) (val : Val) (args : List Pattern)
    (kwargs : List (String × Pattern)) : Except PyErr (Option (List (Pattern × Val))) :=
  if args.length = 0 ∧ kwargs.length = 0 then .ok (some [])
  else
    if (dunderMatchArgs t).length < args.length then
      .error (.typeError "Too many positional arguments")
    else
      match buildNamed ((dunderMatchArgs t).zip args) (kwargs.map Prod.fst) with
      | .error e => .error e
      | .ok named =>
        match buildOut (named ++ kwargs) val with
        | none => .ok none
        | some out => .ok (some out)

/-! ### Structure of the pairs returned by `match_args_and_kwargs`

Needed to justify termination of the recursive matcher: every pattern in the
returned pairs is one of the sub-patterns of the construction pattern. -/

theorem buildNamed_ok_eq (l : List (String × Pattern)) (taken : List String)
    (named : List (String × Pattern)) (h : buildNamed l taken = .ok named) :
    named = l := by
  induction l generalizing taken named with
  | nil => simp [buildNamed] at h; exact h
  | cons hd tl ih =>
    obtain ⟨n, a⟩ := hd
    simp only [buildNamed] at h
    split at h
    · exact absurd h (by simp)
    · cases hb : buildNamed tl (n :: taken) with
      | error e => rw [hb] at h; exact absurd h (by simp)
      | ok out =>
        rw [hb] at h
        simp only [Except.ok.injEq] at h
        subst h
        rw [ih _ _ hb]

theorem buildOut_map_fst (l : List (String × Pattern)) (val : Val)
    (out : List (Pattern × Val)) (h : buildOut l val = some out) :
    out.map Prod.fst = l.map Prod.snd := by
  induction l generalizing out with
  | nil => simp [buildOut] at h; simp [← h]
  | cons hd tl ih =>
    obtain ⟨n, k⟩ := hd
    simp only [buildOut] at h
    split at h
    · exact absurd h (by simp)
    · cases hb : buildOut tl val with
      | none => rw [hb] at h; exact absurd h (by simp)
      | some out' =>
        rw [hb] at h
        simp only [Option.some.injEq] at h
        subst h
        simp [ih _ hb]

theorem match_args_and_kwargs_pairs_fst (t : PyType) (val : Val)
    (args : List Pattern) (kwargs : List (String × Pattern))
    (pairs : List (Pattern × Val))
    (h : match_args_and_kwargs t val args kwargs = .ok (some pairs)) :
    pairs.map Prod.fst = args ++ kwargs.map Prod.snd := by
  unfold match_args_and_kwargs at h
  split at h
  · rename_i hz
    simp only [Except.ok.injEq, Option.some.injEq] at h
    obtain ⟨h1, h2⟩ := hz
    subst h
    simp [List.length_eq_zero.mp h1, List.map_eq_nil_iff.mpr (List.length_eq_zero.mp h2)]
  · rename_i hz
    split at h
    · exact absurd h (by simp)
    · rename_i hlen
      cases hb : buildNamed ((dunderMatchArgs t).zip args) (kwargs.map Prod.fst) with
      | error e => rw [hb] at h; exact absurd h (by simp)
      | ok named =>
        rw [hb] at h
        dsimp only at h
        cases ho : buildOut (named ++ kwargs) val with
        | none => rw [ho] at h; exact absurd h (by simp)
        | some out =>
          rw [ho] at h
          simp only [Except.ok.injEq, Option.some.injEq] at h
          subst h
          have hn := buildNamed_ok_eq _ _ _ hb
          subst hn
          rw [buildOut_map_fst _ _ _ ho]
          simp only [List.map_append]
          congr 1
          exact List.map_snd_zip _ _ (by omega)

/-! ### Size lemmas for the matcher's termination

`match_args_and_kwargs` returns pairs whose pattern components are exactly
the positional sub-patterns followed by the keyword sub-patterns; this bounds
their combined size by the size of the enclosing construction pattern. -/

theorem sizeOf_list_append (l₁ l₂ : List Pattern) :
    sizeOf (l₁ ++ l₂) + 1 = sizeOf l₁ + sizeOf l₂ := by
  induction l₁ with
  | nil => simp only [List.nil_append, List.nil.sizeOf_spec]; omega
  | cons hd tl ih => simp only [List.cons_append, List.cons.sizeOf_spec]; omega

theorem sizeOf_map_snd_le (l : List (String × Pattern)) :
    sizeOf (l.map Prod.snd) ≤ sizeOf l := by
  induction l with
  | nil => simp
  | cons hd tl ih =>
    obtain ⟨s, p⟩ := hd
    simp only [List.map_cons, List.cons.sizeOf_spec, Prod.mk.sizeOf_spec]
    omega

theorem mak_pairs_sizeOf_lt (t : PyType) (val : Val) (cls : List String)
    (args : List Pattern) (kwargs : List (String × Pattern))
    (pairs : List (Pattern × Val))
    (h : match_args_and_kwargs t val args kwargs = .ok (some pairs)) :
    sizeOf (pairs.map Prod.fst) < 1 + sizeOf cls + sizeOf args + sizeOf kwargs := by
  rw [match_args_and_kwargs_pairs_fst _ _ _ _ _ h]
  have h1 := sizeOf_list_append args (kwargs.map Prod.snd)
  have h2 := sizeOf_map_snd_le kwargs
  omega

theorem sizeOf_fst_lt_pair_cons (p : Pattern) (v : Val)
    (rest : List (Pattern × Val)) :
    sizeOf p < sizeOf (((p, v) :: rest).map Prod.fst) := by
  simp
  omega

/-! ## The matcher (`Pattern.match` methods of `pattern_engine.py`)

`pmatch` is the Lean name for the Python `match` method (`match` is a Lean
keyword).  The return type `Except PyErr (Option Bindings)` mirrors the
Python `Optional[dict]` return value with raised exceptions propagating. -/

mutual

def Pattern.pmatch (p : Pattern) (v : Val) (get : String → Val) :
    Except PyErr (Option Bindings) :=
  match p with
  | .ptCaptureAs base name =>
    -- `PtCaptureAs.match`: r = base.match(...); if r is not None: r[name] = value
    match Pattern.pmatch base v get with
    | .error e => .error e
    | .ok none => .ok none
    | .ok (some r) => .ok (some (dictSet r name v))
  | .ptCapture name =>
    -- `PtCapture.match`
    .ok (some [(name, v)])
  | .ptOr options =>
    -- `PtOr.match`
    matchOptions options v get
  | .ptConst c =>
    -- `PtConstant.match`: {} if self.calc_value(get) == value else None
    match calcValue c get with
    | .error e => .error e
    | .ok cv => .ok (if pyEq cv v then some [] else none)
  | .ptClass cls args kwargs =>
    -- `PtClass.match`
    match calcValue (.value cls) get with
    | .error e => .error e
    | .ok t =>
      match t with
      | .vType ty =>
        if pyIsinstance v ty then
          match h : match_args_and_kwargs ty v args kwargs with
          | .error e => .error e
          | .ok none => .ok none
          | .ok (some pairs) => matchPairs pairs get []
        else .ok none
      | _ => .error .assertionError  -- assert isinstance(t, type)
  | .ptFixedSequence elements =>
    -- `PtFixedSequence.match`
    if pySeqIsinstance v then
      if (pySeqElems v).length = elements.length then
        matchAll elements (pySeqElems v) get []
      else .ok none
    else .ok none
  | .ptMapping elements star =>
    -- `PtMapping.match`
    match v with
    | .vDict entries =>
      match mappingLoop elements entries get [] [] with
      | .error e => .error e
      | .ok none => .ok none
      | .ok (some (out, used)) =>
        match star with
        | none => .ok (some out)
        | some s =>
          .ok (some (dictSet out s
            (.vDict (entries.filter (fun kv => ! keyInUsed kv.fst used)))))
    | _ => .ok none  -- not isinstance(value, Mapping)
  | .ptVariableSequence pre star post =>
    -- `PtVariableSequence.match`
    if pySeqIsinstance v then
      if (pySeqElems v).length < pre.length + post.length then .ok none
      else
        -- pre_val = value[:len(pre)]; post_val = value[len(value)-len(post):]
        -- star_val = value[len(pre):len(value)-len(post)]
        match matchAll pre (pySeqElems (pySlice v 0 pre.length)) get [] with
        | .error e => .error e
        | .ok none => .ok none
        | .ok (some preOut) =>
          match matchAll post
              (pySeqElems (pySlice v ((pySeqElems v).length - post.length)
                (pySeqElems v).length)) get [] with
          | .error e => .error e
          | .ok none => .ok none
          | .ok (some postOut) =>
            -- {**pre_out, star: star_val, **post_out}
            .ok (some (dictUpdate
              (dictSet preOut star
                (pySlice v pre.length ((pySeqElems v).length - post.length)))
              postOut))
    else .ok none
termination_by sizeOf p
decreasing_by
  all_goals simp_wf
  all_goals first
    | exact mak_pairs_sizeOf_lt _ _ cls _ _ _ h
    | omega

/-- The `for o in self.options` loop of `PtOr.match`: first success wins,
later options are not evaluated. -/
def matchOptions (options : List Pattern) (v : Val) (get : String → Val) :
    Except PyErr (Option Bindings) :=
  match options with
  | [] => .ok none
  | o :: rest =>
    match Pattern.pmatch o v get with
    | .error e => .error e
    | .ok (some r) => .ok (some r)
    | .ok none => matchOptions rest v get
termination_by sizeOf options
decreasing_by
  all_goals simp_wf
  all_goals omega

/-- `_match_all(pts, value, get)`: iterate `zip_longest(pts, value)` with the
`None` fill value — a missing pattern makes `None.match(...)` raise
`AttributeError`, a missing value matches the pattern against `None`;
`out` accumulates the `out.update(cvar)` merges. -/
def matchAll (pts : List Pattern) (vals : List Val) (get : String → Val)
    (out : Bindings) : Except PyErr (Option Bindings) :=
  match pts, vals with
  | [], [] => .ok (some out)
  | [], _ :: _ => .error .attributeError
  | e :: es, [] =>
    match Pattern.pmatch e .vNone get with
    | .error err => .error err
    | .ok none => .ok none
    | .ok (some cvar) => matchAll es [] get (dictUpdate out cvar)
  | e :: es, v :: vs =>
    match Pattern.pmatch e v get with
    | .error err => .error err
    | .ok none => .ok none
    | .ok (some cvar) => matchAll es vs get (dictUpdate out cvar)
termination_by sizeOf pts
decreasing_by
  all_goals simp_wf
  all_goals omega

/-- The `for pat, val in pairs` loop of `PtClass.match`, accumulating
`out.update(res)`. -/
def matchPairs (pairs : List (Pattern × Val)) (get : String → Val)
    (out : Bindings) : Except PyErr (Option Bindings) :=
  match pairs with
  | [] => .ok (some out)
  | (pat, val) :: rest =>
    match Pattern.pmatch pat val get with
    | .error e => .error e
    | .ok none => .ok none
    | .ok (some res) => matchPairs rest get (dictUpdate out res)
termination_by sizeOf (pairs.map Prod.fst)
decreasing_by
  all_goals simp_wf
  all_goals omega

/-- The `for kp, vp in self.elements` loop of `PtMapping.match`: compute each
key, require its presence, match the value pattern, accumulate the bindings
and the `used.add(kp)` set (the loop really inserts the key *pattern*, not
the computed key). -/
def mappingLoop (elements : List (PtConst × Pattern))
    (entries : List (Val × Val)) (get : String → Val)
    (out : Bindings) (used : List PtConst) :
    Except PyErr (Option (Bindings × List PtConst)) :=
  match elements with
  | [] => .ok (some (out, used))
  | (kp, vp) :: rest =>
    match calcValue kp get with
    | .error e => .error e
    | .ok key =>
      match dictLookupPy entries key with
      | none => .ok none
      | some val =>
        match Pattern.pmatch vp val get with
        | .error e => .error e
        | .ok none => .ok none
        | .ok (some cvar) =>
          mappingLoop rest entries get (dictUpdate out cvar) (used ++ [kp])
termination_by sizeOf elements
decreasing_by
  all_goals simp_wf
  all_goals omega

end

/-! ## The host-expression front-end (`Ast2Pattern` of `pattern_engine.py`)

The subset of the Python `ast` node types that `Ast2Pattern` visits.  A node
kind without a visitor (`Starred` outside a list) falls to `generic_visit`,
which raises `NotImplementedError`.  `dict` nodes carry the
`zip(node.keys, node.values)` item list directly; a `None` key marks a
`**name` item. -/
inductive PyOp where
  | bitOr
  | matMult

inductive PyAst where
  | name (id : String)
  | constant (value : Val)
  | call (func : PyAst) (args : List PyAst) (keywords : List (String × PyAst))
  | list (elts : List PyAst)
  | tuple (elts : List PyAst)
  | starred (value : PyAst)
  | dict (items : List (Option PyAst × PyAst))
  | binOp (left : PyAst) (op : PyOp) (right : PyAst)
  | attribute (value : PyAst) (attr : String)
  | namedExpr (target : PyAst) (value : PyAst)

/-- The or-splicing of `visit_BinOp`: an `Or` contributes its options, any
other pattern contributes itself. -/
def orOptions (p : Pattern) : List Pattern :=
  match p with
  | .ptOr options => options
  | _ => [p]

/-- `isinstance(a, ast.Starred)` -/
def isStarredAst (a : PyAst) : Bool :=
  match a with
  | .starred _ => true
  | _ => false

/-- For a `Starred` node, the name of its value when it is a plain `Name`
(the `assert isinstance(a.value, ast.Name)` of `visit_List`). -/
def starredName (a : PyAst) : Option String :=
  match a with
  | .starred (.name id) => some id
  | _ => none

mutual

/-- `Ast2Pattern().visit(a)`.  Python `assert` failures are
`AssertionError`s, `generic_visit` raises `NotImplementedError`. -/
def ast2pattern (a : PyAst) : Except PyErr Pattern :=
  match a with
  | .name id =>
    -- visit_Name (this includes `_`)
    .ok (.ptCapture id)
  | .constant v =>
    -- visit_Constant
    .ok (.ptConst (.lit v))
  | .call f args kws =>
    -- visit_Call: assert isinstance(node.func, ast.Name)
    match f with
    | .name id =>
      match astVisitList args with
      | .error e => .error e
      | .ok args' =>
        match astVisitKws kws with
        | .error e => .error e
        | .ok kws' => .ok (.ptClass [id] args' kws')
    | _ => .error .assertionError
  | .list elts => astSeqLoop elts [] [] none
  | .tuple elts =>
    -- visit_Tuple delegates to visit_List
    astSeqLoop elts [] [] none
  | .starred _ => .error .notImplementedError
  | .dict items => astDictLoop items [] none
  | .binOp l op r =>
    -- visit_BinOp
    match op with
    | .bitOr =>
      match ast2pattern l with
      | .error e => .error e
      | .ok lp =>
        match ast2pattern r with
        | .error e => .error e
        | .ok rp => .ok (.ptOr (orOptions lp ++ orOptions rp))
    | .matMult =>
      match l with
      | .name id => if id = "c" then ast2pattern r else .error .assertionError
      | _ => .error .assertionError
  | .attribute v attr =>
    -- visit_Attribute
    match ast2pattern v with
    | .error e => .error e
    | .ok base =>
      match base with
      | .ptCapture n => .ok (.ptConst (.value [n, attr]))
      | .ptConst (.value attributes) => .ok (.ptConst (.value (attributes ++ [attr])))
      | _ => .error .assertionError
  | .namedExpr t v =>
    -- visit_NamedExpr
    match ast2pattern v with
    | .error e => .error e
    | .ok vp =>
      match t with
      | .name id => .ok (.ptCaptureAs vp id)
      | _ => .error .assertionError
termination_by sizeOf a
decreasing_by
  all_goals simp_wf
  all_goals omega

/-- `tuple(self.visit(a) for a in node.args)` -/
def astVisitList (l : List PyAst) : Except PyErr (List Pattern) :=
  match l with
  | [] => .ok []
  | a :: rest =>
    match ast2pattern a with
    | .error e => .error e
    | .ok p =>
      match astVisitList rest with
      | .error e => .error e
      | .ok ps => .ok (p :: ps)
termination_by sizeOf l
decreasing_by
  all_goals simp_wf
  all_goals omega

/-- `tuple((k.arg, self.visit(k.value)) for k in node.keywords)` -/
def astVisitKws (l : List (String × PyAst)) : Except PyErr (List (String × Pattern)) :=
  match l with
  | [] => .ok []
  | (n, a) :: rest =>
    match ast2pattern a with
    | .error e => .error e
    | .ok p =>
      match astVisitKws rest with
      | .error e => .error e
      | .ok ps => .ok ((n, p) :: ps)
termination_by sizeOf l
decreasing_by
  all_goals simp_wf
  all_goals omega

/-- The element loop of `visit_List`: non-starred elements are appended to
`pre` until the star is seen and to `post` afterwards (the `cur` alias);
a second star raises `ValueError("Multiple stars in a list")`; the starred
expression must be a plain name. -/
def astSeqLoop (elts : List PyAst) (pre post : List Pattern)
    (star : Option String) : Except PyErr Pattern :=
  match elts with
  | [] =>
    match star with
    | none => .ok (.ptFixedSequence pre)
    | some s => .ok (.ptVariableSequence pre s post)
  | a :: rest =>
    if isStarredAst a then
      if star.isSome then .error (.valueError "Multiple stars in a list")
      else
        match starredName a with
        | some id => astSeqLoop rest pre post (some id)
        | none => .error .assertionError
    else
      match ast2pattern a with
      | .error e => .error e
      | .ok p =>
        match star with
        | none => astSeqLoop rest (pre ++ [p]) post star
        | some _ => astSeqLoop rest pre (post ++ [p]) star
termination_by sizeOf elts
decreasing_by
  all_goals simp_wf
  all_goals omega

/-- The item loop of `visit_Dict`: a `None` key is the `**name` rest-capture
(at most one, and its value must be a plain name); other keys must compile
to `PtConstant`s. -/
def astDictLoop (items : List (Option PyAst × PyAst))
    (out : List (PtConst × Pattern)) (star : Option String) :
    Except PyErr Pattern :=
  match items with
  | [] => .ok (.ptMapping out star)
  | (none, v) :: rest =>
    if star.isSome then .error .assertionError
    else
      match v with
      | .name id => astDictLoop rest out (some id)
      | _ => .error .assertionError
  | (some k, v) :: rest =>
    match ast2pattern k with
    | .error e => .error e
    | .ok kp =>
      match ast2pattern v with
      | .error e => .error e
      | .ok vp =>
        match kp with
        | .ptConst c => astDictLoop rest (out ++ [(c, vp)]) star
        | _ => .error .assertionError
termination_by sizeOf items
decreasing_by
  all_goals simp_wf
  all_goals omega

end

/-! ## The string front-end (`pattern_lark_parser` + `Lark2Pattern` + `str2pattern`)

The Lark grammar of `pattern_engine.py` is modelled by a tokenizer plus a
recursive-descent parser for the fragment the claims exercise: literals
(numbers, `None`/`True`/`False` omitted), captures, or-patterns, groups,
list/tuple sequences with `*NAME` star items, and class patterns with
positional and `NAME=pattern` keyword arguments.  Mapping braces, strings,
dotted names and guard suffixes are outside the modelled fragment (inputs
using them are not the subject of any theorem below).  Transformer callbacks
(`Lark2Pattern` methods) are separate definitions; rules marked `?` in the
grammar are inlined when they have a single child, which the parser mirrors
by calling the callback only for multi-child nodes.  An exception raised in
a callback is wrapped, as `lark.Transformer.transform` wraps it in a
`VisitError`. -/

/-- Errors of `str2pattern`: a parse error (lark `UnexpectedInput`, which is
not a Python `SyntaxError`), or an exception raised inside a transformer
callback (lark `VisitError`). -/
inductive CompileError where
  | unexpectedInput (msg : String)
  | visitError (e : PyErr)
deriving DecidableEq, Repr

/-- Tokens of the modelled grammar fragment.  `NAME: /[a-zA-Z_][a-zA-Z_0-9]*/`,
`NUMBER` (integer literals in the fragment), the punctuation of the grammar,
and the `as`/`if` anonymous keywords (which take precedence over `NAME`). -/
inductive Tok where
  | name (s : String)
  | num (n : Int)
  | pipe
  | lpar
  | rpar
  | lbrack
  | rbrack
  | comma
  | star
  | eq
  | kwAs
  | kwIf
deriving DecidableEq, Repr

def isNameStartChar (c : Char) : Bool :=
  (97 ≤ c.toNat && c.toNat ≤ 122) || (65 ≤ c.toNat && c.toNat ≤ 90) || c = '_'

def isNameChar (c : Char) : Bool :=
  isNameStartChar c || (48 ≤ c.toNat && c.toNat ≤ 57)

def isDigitChar (c : Char) : Bool := 48 ≤ c.toNat && c.toNat ≤ 57

def digitsToNat (ds : List Char) : Nat :=
  ds.foldl (fun acc c => acc * 10 + (c.toNat - 48)) 0

def consTok (t : Tok) (r : Except String (List Tok)) : Except String (List Tok) :=
  match r with
  | .error e => .error e
  | .ok ts => .ok (t :: ts)

/-- The lexer: `%ignore " "+`; punctuation; digit runs as `NUMBER`; name
runs as `NAME`, with the keywords `as`/`if` lexed as their anonymous keyword
tokens.  `fuel` only bounds the recursion (one unit per token or ignored
character); `str2pattern` supplies enough for any input. -/
def tokenize (fuel : Nat) (cs : List Char) : Except String (List Tok) :=
  match fuel with
  | 0 => .error "tokenizer fuel exhausted"
  | fuel + 1 =>
    match cs with
    | [] => .ok []
    | c :: rest =>
      if c = ' ' then tokenize fuel rest
      else if c = '|' then consTok .pipe (tokenize fuel rest)
      else if c = '(' then consTok .lpar (tokenize fuel rest)
      else if c = ')' then consTok .rpar (tokenize fuel rest)
      else if c = '[' then consTok .lbrack (tokenize fuel rest)
      else if c = ']' then consTok .rbrack (tokenize fuel rest)
      else if c = ',' then consTok .comma (tokenize fuel rest)
      else if c = '*' then consTok .star (tokenize fuel rest)
      else if c = '=' then consTok .eq (tokenize fuel rest)
      else if isDigitChar c then
        consTok (.num (Int.ofNat (digitsToNat ((c :: rest).takeWhile isDigitChar))))
          (tokenize fuel ((c :: rest).dropWhile isDigitChar))
      else if isNameStartChar c then
        let nm := String.mk ((c :: rest).takeWhile isNameChar)
        consTok (if nm = "as" then .kwAs else if nm = "if" then .kwIf else .name nm)
          (tokenize fuel ((c :: rest).dropWhile isNameChar))
      else .error "unexpected character"

/-! ### The `Lark2Pattern` transformer callbacks -/

/-- `capture`: `PtCapture(name.value)` -/
def captureCB (s : String) : Pattern := .ptCapture s

/-- `number`: `PtLiteral(eval(t.value))` (integer literals in the fragment) -/
def numberCB (n : Int) : Pattern := .ptConst (.lit (.vInt n))

/-- `or_pattern`: `PtOr(opt)` — the options exactly as parsed, without
flattening nested `Or`s. -/
def orPatternCB (options : List Pattern) : Pattern := .ptOr options

/-- `as_pattern`: `PtCaptureAs(base, name.value)` -/
def asPatternCB (base : Pattern) (nm : String) : Pattern := .ptCaptureAs base nm

/-- `class_pattern`: `PtClass(cls, *(args or ((), ())))` -/
def classPatternCB (cls : List String)
    (arguments : Option (List Pattern × List (String × Pattern))) : Pattern :=
  match arguments with
  | none => .ptClass cls [] []
  | some (pos, kws) => .ptClass cls pos kws

/-- A `_sequence` child: a compiled sub-pattern, or the raw name string a
`star_pattern` node transforms to (`star_pattern` returns `n.value`). -/
def isStarItem (c : Pattern ⊕ String) : Bool :=
  match c with
  | .inr _ => true
  | .inl _ => false

def seqLefts (children : List (Pattern ⊕ String)) : List Pattern :=
  children.filterMap (fun c =>
    match c with
    | .inl p => some p
    | .inr _ => none)

/-- `sequence`: if any child is a star string, split into
`pre`/`star`/`post` via `takewhile` and `assert` that no star remains in
`post` (a second star is an `AssertionError`); otherwise a
`PtFixedSequence`. -/
def sequenceCB (children : List (Pattern ⊕ String)) : Except PyErr Pattern :=
  if children.any isStarItem then
    let pre := children.takeWhile (fun c => ! isStarItem c)
    match children[pre.length]? with
    | some (.inr s) =>
      let post := children.drop (pre.length + 1)
      if post.any isStarItem then .error .assertionError
      else .ok (.ptVariableSequence (seqLefts pre) s (seqLefts post))
    | _ => .error .assertionError
  else .ok (.ptFixedSequence (seqLefts children))

/-- Wrap a callback result: an exception raised inside a transformer callback
surfaces as a lark `VisitError`. -/
def wrapCB (r : Except PyErr Pattern) (rest : List Tok) :
    Except CompileError (Pattern × List Tok) :=
  match r with
  | .error e => .error (.visitError e)
  | .ok p => .ok (p, rest)

/-- Whether a token can begin a `seq_item`
(`seq_item: as_pattern | "*" NAME`). -/
def startsSeqItem (toks : List Tok) : Bool :=
  match toks with
  | .name _ :: _ => true
  | .num _ :: _ => true
  | .lpar :: _ => true
  | .lbrack :: _ => true
  | .star :: _ => true
  | _ => false

mutual

/-- `?as_pattern: or_pattern ("as" NAME)?` -/
def parseAsPattern (fuel : Nat) (toks : List Tok) :
    Except CompileError (Pattern × List Tok) :=
  match fuel with
  | 0 => .error (.unexpectedInput "parser fuel exhausted")
  | fuel + 1 =>
    match parseOrPattern fuel toks with
    | .error e => .error e
    | .ok (p, rest) =>
      match rest with
      | .kwAs :: .name s :: rest2 => .ok (asPatternCB p s, rest2)
      | .kwAs :: _ => .error (.unexpectedInput "expected NAME after as")
      | _ => .ok (p, rest)

/-- `?or_pattern: closed_pattern ("|" closed_pattern)*`; with a single child
the `?`-rule is inlined, otherwise the `or_pattern` callback builds the
`PtOr`. -/
def parseOrPattern (fuel : Nat) (toks : List Tok) :
    Except CompileError (Pattern × List Tok) :=
  match fuel with
  | 0 => .error (.unexpectedInput "parser fuel exhausted")
  | fuel + 1 =>
    match parseClosed fuel toks with
    | .error e => .error e
    | .ok (p, rest) =>
      match parseOrMore fuel rest with
      | .error e => .error e
      | .ok (more, rest2) =>
        match more with
        | [] => .ok (p, rest2)
        | _ => .ok (orPatternCB (p :: more), rest2)

/-- the `("|" closed_pattern)*` tail of `or_pattern` -/
def parseOrMore (fuel : Nat) (toks : List Tok) :
    Except CompileError (List Pattern × List Tok) :=
  match fuel with
  | 0 => .error (.unexpectedInput "parser fuel exhausted")
  | fuel + 1 =>
    match toks with
    | .pipe :: rest =>
      match parseClosed fuel rest with
      | .error e => .error e
      | .ok (p, rest2) =>
        match parseOrMore fuel rest2 with
        | .error e => .error e
        | .ok (ps, rest3) => .ok (p :: ps, rest3)
    | _ => .ok ([], toks)

/-- `?closed_pattern`: number literals, `NAME -> capture`,
`"(" as_pattern ")"` groups, tuple and list sequences, and
`class_pattern: name_or_attr "(" [arguments ","?] ")"` (single-name class
references in the fragment). -/
def parseClosed (fuel : Nat) (toks : List Tok) :
    Except CompileError (Pattern × List Tok) :=
  match fuel with
  | 0 => .error (.unexpectedInput "parser fuel exhausted")
  | fuel + 1 =>
    match toks with
    | .num n :: rest => .ok (numberCB n, rest)
    | .name s :: .lpar :: .rpar :: rest =>
      -- `T()`: the `[arguments ","?]` placeholder is `None`
      .ok (classPatternCB [s] none, rest)
    | .name s :: .lpar :: rest =>
      match parseArgsLoop fuel rest [] [] with
      | .error e => .error e
      | .ok (argsv, rest2) =>
        match rest2 with
        | .rpar :: rest3 => .ok (classPatternCB [s] (some argsv), rest3)
        | _ => .error (.unexpectedInput "expected closing paren of class pattern")
    | .name s :: rest => .ok (captureCB s, rest)
    | .lpar :: .rpar :: rest =>
      -- `"(" ")"`: the tuple rule with the optional part absent
      wrapCB (sequenceCB []) rest
    | .lpar :: rest =>
      match parseSeqItem fuel rest with
      | .error e => .error e
      | .ok (item, rest2) =>
        match item, rest2 with
        | .inl p, .rpar :: rest3 =>
          -- `"(" as_pattern ")"` group (inlined)
          .ok (p, rest3)
        | _, .comma :: rest3 =>
          -- `"(" seq_item "," _sequence ")" -> sequence`
          match parseSeqItems fuel rest3 with
          | .error e => .error e
          | .ok (items, rest4) =>
            match rest4 with
            | .rpar :: rest5 => wrapCB (sequenceCB (item :: items)) rest5
            | _ => .error (.unexpectedInput "expected closing paren of tuple")
        | _, _ => .error (.unexpectedInput "malformed parenthesized pattern")
    | .lbrack :: rest =>
      -- `"[" _sequence "]" -> sequence`
      match parseSeqItems fuel rest with
      | .error e => .error e
      | .ok (items, rest2) =>
        match rest2 with
        | .rbrack :: rest3 => wrapCB (sequenceCB items) rest3
        | _ => .error (.unexpectedInput "expected closing bracket")
    | _ => .error (.unexpectedInput "unexpected token")

/-- `?seq_item: as_pattern | "*" NAME -> star_pattern` -/
def parseSeqItem (fuel : Nat) (toks : List Tok) :
    Except CompileError ((Pattern ⊕ String) × List Tok) :=
  match fuel with
  | 0 => .error (.unexpectedInput "parser fuel exhausted")
  | fuel + 1 =>
    match toks with
    | .star :: .name s :: rest => .ok (.inr s, rest)
    | .star :: _ => .error (.unexpectedInput "expected NAME after star")
    | _ =>
      match parseAsPattern fuel toks with
      | .error e => .error e
      | .ok (p, rest) => .ok (.inl p, rest)

/-- `_sequence: (seq_item ("," seq_item)* ","?)?` (an inlined `_`-rule:
its children splice into the parent sequence node) -/
def parseSeqItems (fuel : Nat) (toks : List Tok) :
    Except CompileError (List (Pattern ⊕ String) × List Tok) :=
  match fuel with
  | 0 => .error (.unexpectedInput "parser fuel exhausted")
  | fuel + 1 =>
    if startsSeqItem toks then
      match parseSeqItem fuel toks with
      | .error e => .error e
      | .ok (item, rest) =>
        match rest with
        | .comma :: rest2 =>
          match parseSeqItems fuel rest2 with
          | .error e => .error e
          | .ok (items, rest3) => .ok (item :: items, rest3)
        | _ => .ok ([item], rest)
    else .ok ([], toks)

/-- `arguments: pos ["," keyws] | keyws` with `pos: as_pattern ("," as_pattern)*`,
`keyws: keyw ("," keyw)*`, `keyw: NAME "=" as_pattern`, plus the trailing
comma of the enclosing `[arguments ","?]`.  A positional argument after a
keyword argument does not parse. -/
def parseArgsLoop (fuel : Nat) (toks : List Tok)
    (pos : List Pattern) (kws : List (String × Pattern)) :
    Except CompileError ((List Pattern × List (String × Pattern)) × List Tok) :=
  match fuel with
  | 0 => .error (.unexpectedInput "parser fuel exhausted")
  | fuel + 1 =>
    match toks with
    | .name s :: .eq :: rest =>
      match parseAsPattern fuel rest with
      | .error e => .error e
      | .ok (p, rest2) =>
        match rest2 with
        | .comma :: rest3 =>
          match rest3 with
          | .rpar :: _ => .ok ((pos, kws ++ [(s, p)]), rest3)
          | _ => parseArgsLoop fuel rest3 pos (kws ++ [(s, p)])
        | _ => .ok ((pos, kws ++ [(s, p)]), rest2)
    | _ =>
      if ! kws.isEmpty then .error (.unexpectedInput "positional after keyword argument")
      else
        match parseAsPattern fuel toks with
        | .error e => .error e
        | .ok (p, rest) =>
          match rest with
          | .comma :: rest2 =>
            match rest2 with
            | .rpar :: _ => .ok ((pos ++ [p], kws), rest2)
            | _ => parseArgsLoop fuel rest2 (pos ++ [p]) kws
          | _ => .ok ((pos ++ [p], kws), rest)

/-- `?pat: seq_item "," _sequence -> sequence | as_pattern` -/
def parsePat (fuel : Nat) (toks : List Tok) :
    Except CompileError (Pattern × List Tok) :=
  match fuel with
  | 0 => .error (.unexpectedInput "parser fuel exhausted")
  | fuel + 1 =>
    match parseSeqItem fuel toks with
    | .error e => .error e
    | .ok (item, rest) =>
      match rest with
      | .comma :: rest2 =>
        match parseSeqItems fuel rest2 with
        | .error e => .error e
        | .ok (items, rest3) => wrapCB (sequenceCB (item :: items)) rest3
      | _ =>
        match item with
        | .inl p => .ok (p, rest)
        | .inr _ => .error (.unexpectedInput "bare star item without sequence")

end

/-- `str2pattern(s)` for guard-free pattern text: parse and transform.
Without an `"if" guard` suffix the `?start` rule has a single child and is
inlined, so the transform result is the pattern itself (with a guard the
`start` callback would return a `(pattern, guard)` pair; guards are outside
the modelled fragment).  The `lru_cache` memoization is semantically
transparent for this pure function and is not modelled. -/
def str2pattern (s : String) : Except CompileError Pattern :=
  match tokenize (s.length + 1) s.data with
  | .error e => .error (.unexpectedInput e)
  | .ok toks =>
    match parsePat (4 * toks.length + 8) toks with
    | .error e => .error e
    | .ok (p, rest) =>
      match rest with
      | [] => .ok p
      | .kwIf :: _ => .error (.unexpectedInput "guard suffix outside modelled fragment")
      | _ => .error (.unexpectedInput "unexpected trailing tokens")

/-! ## Auxiliary lemmas for the claim theorems -/

theorem pySeqElems_slice (v : Val) (i j : Nat) (hseq : pySeqIsinstance v = true) :
    pySeqElems (pySlice v i j) = ((pySeqElems v).drop i).take (j - i) := by
  cases v <;> simp_all [pySeqIsinstance, pySeqElems, pySlice, List.map_take, List.map_drop]

/-! ## Claim theorems -/

/-- C1: matching the pattern `{"a": a, **rest}` against the mapping
`{"a": 1, "b": 2, "c": 3}`.  Because `PtMapping.match` executes
`used.add(kp)` — inserting the key *pattern object* instead of the computed
key — the rest-capture filter `k not in used` excludes nothing, and `rest`
is bound to a copy of the *entire* mapping `{"a": 1, "b": 2, "c": 3}`
(including the explicitly listed key `"a"`), not to `{"b": 2, "c": 3}` as
the claim states. -/
theorem C1_mapping_star_keeps_listed_keys (get : String → Val) :
    Pattern.pmatch
      (.ptMapping [(.lit (.vStr ['a']), .ptCapture "a")] (some "rest"))
      (.vDict [(.vStr ['a'], .vInt 1), (.vStr ['b'], .vInt 2), (.vStr ['c'], .vInt 3)])
      get =
    .ok (some [("a", .vInt 1),
      ("rest", .vDict [(.vStr ['a'], .vInt 1), (.vStr ['b'], .vInt 2),
        (.vStr ['c'], .vInt 3)])]) := by
  simp [Pattern.pmatch, mappingLoop, calcValue, dictLookupPy, pyEq, dictUpdate, dictSet,
    keyInUsed, valEqKeyPattern]

/-- C2: for a variable-length sequence pattern, the match fails when the
runtime length is below `len(pre) + len(post)`; otherwise `pre` is matched
against the leading `len(pre)` elements, `post` against the trailing
elements from index `len(value) - len(post)` on, and the star name is bound
to the middle slice; in particular `[a, *mid, ]` against `[1, 2, 3]` binds
`mid` to `[2, 3]`. -/
theorem C2_variable_sequence_slicing (pre post : List Pattern) (star : String)
    (v : Val) (get : String → Val) (hseq : pySeqIsinstance v = true) :
    ((pySeqElems v).length < pre.length + post.length →
      Pattern.pmatch (.ptVariableSequence pre star post) v get = .ok none)
    ∧ (pre.length + post.length ≤ (pySeqElems v).length →
      Pattern.pmatch (.ptVariableSequence pre star post) v get =
        (match matchAll pre ((pySeqElems v).take pre.length) get [] with
        | .error e => .error e
        | .ok none => .ok none
        | .ok (some preOut) =>
          match matchAll post
              ((pySeqElems v).drop ((pySeqElems v).length - post.length)) get [] with
          | .error e => .error e
          | .ok none => .ok none
          | .ok (some postOut) =>
            .ok (some (dictUpdate
              (dictSet preOut star
                (pySlice v pre.length ((pySeqElems v).length - post.length)))
              postOut))))
    ∧ Pattern.pmatch (.ptVariableSequence [.ptCapture "a"] "mid" [])
        (.vList [.vInt 1, .vInt 2, .vInt 3]) get =
        .ok (some [("a", .vInt 1), ("mid", .vList [.vInt 2, .vInt 3])]) := by
  refine ⟨fun hlt => ?_, fun hle => ?_, ?_⟩
  · simp only [Pattern.pmatch, hseq, if_true]
    rw [if_pos hlt]
  · simp only [Pattern.pmatch, hseq, if_true]
    rw [if_neg (by omega)]
    rw [pySeqElems_slice v 0 pre.length hseq,
      pySeqElems_slice v ((pySeqElems v).length - post.length) (pySeqElems v).length hseq]
    rw [List.drop_zero, Nat.sub_zero]
    have hdl : (((pySeqElems v).drop ((pySeqElems v).length - post.length)).length) ≤
        (pySeqElems v).length - ((pySeqElems v).length - post.length) := by
      simp [List.length_drop]
    rw [List.take_of_length_le hdl]
  · simp [Pattern.pmatch, matchAll, pySeqIsinstance, pySeqElems, pySlice,
      dictUpdate, dictSet]

/-- witness for C2 at concrete inputs: a length-failing match and the
`[a, *mid, ]` example -/
theorem C2_variable_sequence_slicing_witness :
    Pattern.pmatch (.ptVariableSequence [.ptCapture "a"] "mid" [.ptCapture "b"])
      (.vList [.vInt 1]) (fun _ => .vNone) = .ok none
    ∧ Pattern.pmatch (.ptVariableSequence [.ptCapture "a"] "mid" [])
        (.vList [.vInt 1, .vInt 2, .vInt 3]) (fun _ => .vNone) =
        .ok (some [("a", .vInt 1), ("mid", .vList [.vInt 2, .vInt 3])]) :=
  ⟨(C2_variable_sequence_slicing [.ptCapture "a"] [.ptCapture "b"] "mid"
      (.vList [.vInt 1]) (fun _ => .vNone) (by rfl)).1 (by decide),
   (C2_variable_sequence_slicing [.ptCapture "a"] [] "mid"
      (.vList [.vInt 1, .vInt 2, .vInt 3]) (fun _ => .vNone) (by rfl)).2.2⟩

/-- C5: `PtOr.match` tries options left to right; once the first option
succeeds its bindings are the result (for every tail, so no later option is
ever evaluated and no `resolve` call a later option would make happens),
and when the first option fails the remaining options are tried in order. -/
theorem C5_or_left_bias (a : Pattern) (rest : List Pattern) (v : Val)
    (get : String → Val) :
    (∀ r, Pattern.pmatch a v get = .ok (some r) →
      Pattern.pmatch (.ptOr (a :: rest)) v get = .ok (some r))
    ∧ (Pattern.pmatch a v get = .ok none →
      Pattern.pmatch (.ptOr (a :: rest)) v get = matchOptions rest v get) := by
  constructor
  · intro r h
    simp only [Pattern.pmatch, matchOptions, h]
  · intro h
    simp only [Pattern.pmatch, matchOptions, h]

/-- witness for C5: `Or((A, B))` on a value both options accept returns
exactly `A`'s bindings -/
theorem C5_or_left_bias_witness :
    Pattern.pmatch (.ptOr [.ptCapture "x", .ptCapture "y"]) (.vInt 7)
      (fun _ => .vNone) = .ok (some [("x", .vInt 7)]) :=
  (C5_or_left_bias (.ptCapture "x") [.ptCapture "y"] (.vInt 7)
    (fun _ => .vNone)).1 [("x", .vInt 7)] (by simp [Pattern.pmatch])

/-- C6: a `Construction` pattern whose resolved field list names an attribute
the instance lacks makes the whole match fail (return `None`), without
raising and without matching any sub-pattern: here the type resolves to
fields `("x", "y")`, the instance has no attribute `y`, and `T(p, q)` fails
for arbitrary sub-patterns `p`, `q`. -/
theorem C6_missing_field_is_match_failure (ty : PyType)
    (attrs : List (String × Val)) (p q : Pattern) (get : String → Val)
    (hma : dunderMatchArgs ty = ["x", "y"])
    (hy : lookupStr attrs "y" = none)
    (hget : get "T" = .vType ty) :
    Pattern.pmatch (.ptClass ["T"] [p, q] []) (.vObj ty attrs) get = .ok none := by
  have hmak : match_args_and_kwargs ty (.vObj ty attrs) [p, q] [] = .ok none := by
    simp only [match_args_and_kwargs, hma, List.length_nil, List.length_cons]
    norm_num
    simp only [buildNamed, List.zip_cons_cons, List.zip_nil_right]
    cases hx : lookupStr attrs "x" <;>
      simp [buildOut, isSpecialAttribute, getattrVal, hx, hy]
  simp only [Pattern.pmatch, calcValue, getattrChain, hget, pyIsinstance,
    decide_True, if_true]
  split <;> simp_all

/-- witness for C6 at a concrete type and instance -/
theorem C6_missing_field_is_match_failure_witness :
    Pattern.pmatch (.ptClass ["T"] [.ptCapture "u", .ptCapture "w"] [])
      (.vObj ⟨"T", "m.T", some ["x", "y"], false, [], false, []⟩ [("x", .vInt 0)])
      (fun _ => .vType ⟨"T", "m.T", some ["x", "y"], false, [], false, []⟩) =
      .ok none :=
  C6_missing_field_is_match_failure
    ⟨"T", "m.T", some ["x", "y"], false, [], false, []⟩ [("x", .vInt 0)]
    (.ptCapture "u") (.ptCapture "w") (fun _ => .vType ⟨"T", "m.T", some ["x", "y"], false, [], false, []⟩)
    (by rfl) (by rfl) (by rfl)

/-- C7 (counterexample to the claim as stated): a type with no
`__match_args__`, no built-in entry, no `known_cases` entry and no special
handler, matched by the keyword-only construction pattern `T(x=c)` against
an instance that has attribute `x`, silently *succeeds* with bindings
`{c: 5}` — no "too many arguments" error is raised, because the positional
arity check only guards positional sub-patterns. -/
theorem C7_keyword_only_silently_matches :
    Pattern.pmatch (.ptClass ["T"] [] [("x", .ptCapture "c")])
      (.vObj ⟨"T", "m.T", none, false, [], false, []⟩ [("x", .vInt 5)])
      (fun _ => .vType ⟨"T", "m.T", none, false, [], false, []⟩) =
    .ok (some [("c", .vInt 5)]) := by
  simp [Pattern.pmatch, calcValue, getattrChain, pyIsinstance, match_args_and_kwargs,
    dunderMatchArgs, builtin_match_args, known_cases, buildNamed, buildOut,
    isSpecialAttribute, getattrVal, lookupStr, matchPairs, dictUpdate, dictSet,
    pyListType, pySetType, pyDictType, pyFrozensetType, pyTupleType, pyBoolType,
    pyFloatType, pyIntType, pyStrType, pyBytesType, pyBytearrayType]

/-- C7 (amended): for a type with none of the field-resolution sources the
registry yields the empty field list, and a construction pattern with at
least one *positional* sub-pattern raises the "too many positional
arguments" `TypeError` (an error, not a match failure); keyword-only
patterns bypass the field list (see the counterexample). -/
theorem C7_unknown_type_positional_errors (ty : PyType)
    (attrs : List (String × Val)) (args : List Pattern)
    (kwargs : List (String × Pattern)) (get : String → Val)
    (hattr : ty.matchArgsAttr = none)
    (hbuiltin : builtin_match_args ty = none)
    (hknown : known_cases ty.qualname = none)
    (hdc : ty.isDataclass = false)
    (hnt : ty.isNamedtuple = false)
    (hargs : args ≠ [])
    (hget : get "T" = .vType ty) :
    dunderMatchArgs ty = []
    ∧ Pattern.pmatch (.ptClass ["T"] args kwargs) (.vObj ty attrs) get =
      .error (.typeError "Too many positional arguments") := by
  have hma : dunderMatchArgs ty = [] := by
    simp [dunderMatchArgs, hattr, hbuiltin, hknown, hdc, hnt]
  refine ⟨hma, ?_⟩
  have hlen : 0 < args.length := by
    cases args with
    | nil => exact absurd rfl hargs
    | cons hd tl => simp
  have hmak : match_args_and_kwargs ty (.vObj ty attrs) args kwargs =
      .error (.typeError "Too many positional arguments") := by
    simp only [match_args_and_kwargs, hma, List.length_nil]
    rw [if_neg (by omega), if_pos (by omega)]
  simp only [Pattern.pmatch, calcValue, getattrChain, hget, pyIsinstance,
    decide_True, if_true]
  split <;> simp_all

/-- witness for C7's amended theorem at a concrete unknown type -/
theorem C7_unknown_type_positional_errors_witness :
    dunderMatchArgs ⟨"T", "m.T", none, false, [], false, []⟩ = []
    ∧ Pattern.pmatch (.ptClass ["T"] [.ptConst (.lit (.vInt 1))] [])
      (.vObj ⟨"T", "m.T", none, false, [], false, []⟩ [])
      (fun _ => .vType ⟨"T", "m.T", none, false, [], false, []⟩) =
      .error (.typeError "Too many positional arguments") :=
  C7_unknown_type_positional_errors ⟨"T", "m.T", none, false, [], false, []⟩
    [] [.ptConst (.lit (.vInt 1))] [] (fun _ => .vType ⟨"T", "m.T", none, false, [], false, []⟩)
    (by rfl) (by rfl) (by rfl) (by rfl) (by rfl) (by simp) (by rfl)

/-- C9: a construction pattern with no positional and no keyword
sub-patterns matches every instance of the resolved type with empty
bindings, for *every* type — `match_args_and_kwargs` returns before
consulting the field-resolution registry, so types with no resolvable
field list are matched all the same. -/
theorem C9_empty_construction_skips_registry (ty : PyType) (v : Val)
    (clsName : String) (get : String → Val)
    (hget : get clsName = .vType ty)
    (hinst : pyIsinstance v ty = true) :
    Pattern.pmatch (.ptClass [clsName] [] []) v get = .ok (some []) := by
  have hmak : match_args_and_kwargs ty v [] [] = .ok (some []) := by
    simp [match_args_and_kwargs]
  simp only [Pattern.pmatch, calcValue, getattrChain, hget, hinst, if_true]
  split <;> simp_all [matchPairs]

/-- witness for C9: `T()` against an instance of a type with no registry
information succeeds with empty bindings -/
theorem C9_empty_construction_skips_registry_witness :
    Pattern.pmatch (.ptClass ["T"] [] [])
      (.vObj ⟨"T", "m.T", none, false, [], false, []⟩ [])
      (fun _ => .vType ⟨"T", "m.T", none, false, [], false, []⟩) = .ok (some []) :=
  C9_empty_construction_skips_registry ⟨"T", "m.T", none, false, [], false, []⟩
    (.vObj ⟨"T", "m.T", none, false, [], false, []⟩ [])
    "T" (fun _ => .vType ⟨"T", "m.T", none, false, [], false, []⟩)
    (by rfl) (by rfl)

/-- on a string, a list of one-character literal patterns matches the
characters one by one -/
theorem matchAll_charLiterals (cs : List Char) (get : String → Val)
    (out : Bindings) :
    matchAll (cs.map (fun c => .ptConst (.lit (.vStr [c]))))
      (cs.map (fun c => .vStr [c])) get out = .ok (some out) := by
  induction cs generalizing out with
  | nil => simp [matchAll]
  | cons c rest ih =>
    simp only [List.map_cons, matchAll, Pattern.pmatch, calcValue, pyEq]
    simp [dictUpdate, ih]

/-- C10: the sequence-likeness test of the sequence patterns accepts text
and byte strings; a fixed sequence pattern of matching length matches a
string character by character (each element sees a one-character string),
a string is matched by the list of its own character literals, and
`FixedSequence([])` succeeds on `""` with empty bindings. -/
theorem C10_sequence_patterns_match_strings (cs : List Char) (bs : List Nat)
    (elems : List Pattern) (get : String → Val) :
    pySeqIsinstance (.vStr cs) = true
    ∧ pySeqIsinstance (.vBytes bs) = true
    ∧ (elems.length = cs.length →
      Pattern.pmatch (.ptFixedSequence elems) (.vStr cs) get =
        matchAll elems (cs.map (fun c => .vStr [c])) get [])
    ∧ Pattern.pmatch
        (.ptFixedSequence (cs.map (fun c => .ptConst (.lit (.vStr [c])))))
        (.vStr cs) get = .ok (some [])
    ∧ Pattern.pmatch (.ptFixedSequence []) (.vStr []) get = .ok (some []) := by
  refine ⟨rfl, rfl, fun hlen => ?_, ?_, ?_⟩
  · simp [Pattern.pmatch, pySeqIsinstance, pySeqElems, hlen]
  · simp only [Pattern.pmatch, pySeqIsinstance, pySeqElems, List.length_map, if_true]
    simp [matchAll_charLiterals]
  · simp [Pattern.pmatch, pySeqIsinstance, pySeqElems, matchAll]

/-- witness for C10 at a concrete one-character string -/
theorem C10_sequence_patterns_match_strings_witness :
    Pattern.pmatch (.ptFixedSequence [.ptCapture "x"]) (.vStr ['q'])
      (fun _ => .vNone) =
      matchAll [.ptCapture "x"] [.vStr ['q']] (fun _ => .vNone) [] :=
  (C10_sequence_patterns_match_strings ['q'] [] [.ptCapture "x"]
    (fun _ => .vNone)).2.2.1 (by decide)

/-! ### Error-kind and pattern-shape predicates for the front-end claims -/

def isOrPattern (p : Pattern) : Bool :=
  match p with
  | .ptOr _ => true
  | _ => false

/-- whether a pattern is an `Or` one of whose options is itself an `Or` -/
def hasDirectlyNestedOr (p : Pattern) : Bool :=
  match p with
  | .ptOr options => options.any isOrPattern
  | _ => false

/-- whether a raised exception is a Python `SyntaxError` -/
def isSyntaxErr (e : PyErr) : Bool :=
  match e with
  | .syntaxError _ => true
  | _ => false

/-- whether a compile failure is a Python `SyntaxError` (lark parse errors
are `UnexpectedInput`s and callback failures are the wrapped exceptions;
neither is a `SyntaxError`). -/
def isSyntaxErrCompile (e : CompileError) : Bool :=
  match e with
  | .unexpectedInput _ => false
  | .visitError e' => isSyntaxErr e'

/-- C3 (counterexample to the claim as stated): compiling the pattern text
`T(1,2,3)` *succeeds* — `str2pattern` performs no arity check against the
target type's field list, so no `TooManyPositionalArguments` error is
raised at compile time of the call site. -/
theorem C3_compilation_succeeds :
    str2pattern "T(1,2,3)" =
      .ok (.ptClass ["T"] [.ptConst (.lit (.vInt 1)), .ptConst (.lit (.vInt 2)),
        .ptConst (.lit (.vInt 3))] []) := by rfl

/-- C3 (amended): the `TooManyPositionalArguments` condition surfaces when
the compiled pattern is *matched* against an instance of a type whose
resolved field list is shorter than the positional pattern list: matching
`T(1,2,3)` against an instance of a type with fields `("x","y")` raises the
`TypeError` (an error, not a match failure), while compilation of the
pattern succeeds. -/
theorem C3_arity_error_raised_at_match_time (ty : PyType)
    (attrs : List (String × Val)) (get : String → Val)
    (hma : dunderMatchArgs ty = ["x", "y"])
    (hget : get "T" = .vType ty) :
    str2pattern "T(1,2,3)" =
      .ok (.ptClass ["T"] [.ptConst (.lit (.vInt 1)), .ptConst (.lit (.vInt 2)),
        .ptConst (.lit (.vInt 3))] [])
    ∧ Pattern.pmatch
        (.ptClass ["T"] [.ptConst (.lit (.vInt 1)), .ptConst (.lit (.vInt 2)),
          .ptConst (.lit (.vInt 3))] [])
        (.vObj ty attrs) get = .error (.typeError "Too many positional arguments") := by
  refine ⟨by rfl, ?_⟩
  have hmak : match_args_and_kwargs ty (.vObj ty attrs)
      [.ptConst (.lit (.vInt 1)), .ptConst (.lit (.vInt 2)), .ptConst (.lit (.vInt 3))] [] =
      .error (.typeError "Too many positional arguments") := by
    simp [match_args_and_kwargs, hma]
  simp only [Pattern.pmatch, calcValue, getattrChain, hget, pyIsinstance,
    decide_True, if_true]
  split <;> simp_all

/-- witness for C3's amended theorem at a concrete type with fields
`("x","y")` -/
theorem C3_arity_error_raised_at_match_time_witness :
    str2pattern "T(1,2,3)" =
      .ok (.ptClass ["T"] [.ptConst (.lit (.vInt 1)), .ptConst (.lit (.vInt 2)),
        .ptConst (.lit (.vInt 3))] [])
    ∧ Pattern.pmatch
        (.ptClass ["T"] [.ptConst (.lit (.vInt 1)), .ptConst (.lit (.vInt 2)),
          .ptConst (.lit (.vInt 3))] [])
        (.vObj ⟨"T", "m.T", some ["x", "y"], false, [], false, []⟩ [])
        (fun _ => .vType ⟨"T", "m.T", some ["x", "y"], false, [], false, []⟩) =
        .error (.typeError "Too many positional arguments") :=
  C3_arity_error_raised_at_match_time ⟨"T", "m.T", some ["x", "y"], false, [], false, []⟩
    [] (fun _ => .vType ⟨"T", "m.T", some ["x", "y"], false, [], false, []⟩)
    (by rfl) (by rfl)

/-- C4 (counterexample to the claim as stated): compiling the pattern *text*
`(a|b)|c` through the string front-end produces a *nested* `Or` — the
`or_pattern` callback wraps its children in `PtOr` without splicing nested
`Or` options. -/
theorem C4_lark_or_is_nested :
    str2pattern "(a|b)|c" =
      .ok (.ptOr [.ptOr [.ptCapture "a", .ptCapture "b"], .ptCapture "c"])
    ∧ hasDirectlyNestedOr
        (.ptOr [.ptOr [.ptCapture "a", .ptCapture "b"], .ptCapture "c"]) = true := by
  exact ⟨by rfl, by rfl⟩

/-- C4 (amended): the host-expression front-end does flatten — `visit_BinOp`
splices the options of `Or` operands, so the expression `(a|b)|c` compiles
to a single three-option `Or` with no nested `Or`; the string front-end
instead produces the nested `Or` of the counterexample (an unparenthesized
`a|b|c` is a single grammar node and yields a flat three-option `Or` there
as well). -/
theorem C4_ast_or_is_flattened (a b c : String) :
    ast2pattern (.binOp (.binOp (.name a) .bitOr (.name b)) .bitOr (.name c)) =
      .ok (.ptOr [.ptCapture a, .ptCapture b, .ptCapture c])
    ∧ hasDirectlyNestedOr (.ptOr [.ptCapture a, .ptCapture b, .ptCapture c]) = false
    ∧ str2pattern "a|b|c" =
      .ok (.ptOr [.ptCapture "a", .ptCapture "b", .ptCapture "c"]) := by
  refine ⟨?_, by simp [hasDirectlyNestedOr, isOrPattern], by rfl⟩
  simp [ast2pattern, orOptions]

/-- two starred items in a `visit_List` element list always raise
`ValueError("Multiple stars in a list")`, whatever precedes (plain names)
or follows them -/
theorem astSeqLoop_two_stars (pres : List String) (a b : String)
    (rest : List PyAst) (pre post : List Pattern) :
    astSeqLoop (pres.map .name ++ .starred (.name a) :: .starred (.name b) :: rest)
      pre post none = .error (.valueError "Multiple stars in a list") := by
  induction pres generalizing pre with
  | nil =>
    simp [astSeqLoop, isStarredAst, starredName]
  | cons n tl ih =>
    simp only [List.map_cons, List.cons_append, astSeqLoop, isStarredAst,
      Bool.false_eq_true, if_false, ast2pattern]
    exact ih _

/-- C8 (counterexample to the claim as stated): the sequence pattern text
`[*a, *b]` is rejected, but with an `AssertionError` raised inside the
`sequence` transformer callback (surfacing as a lark `VisitError`), not
with a Python `SyntaxError`. -/
theorem C8_multiple_stars_not_a_syntax_error :
    str2pattern "[*a, *b]" = .error (.visitError .assertionError)
    ∧ isSyntaxErrCompile (.visitError .assertionError) = false := by
  exact ⟨by rfl, by rfl⟩

/-- C8 (amended): a sequence pattern with two star-captures is rejected with
an error and no pattern tree is produced — a `ValueError` from the
host-expression front-end (for any such element list) and an
`AssertionError` wrapped in a `VisitError` from the string front-end — but
the error is not a `SyntaxError`. -/
theorem C8_multiple_stars_rejected (pres : List String) (a b : String)
    (rest : List PyAst) :
    ast2pattern (.list (pres.map .name ++ .starred (.name a) ::
        .starred (.name b) :: rest)) = .error (.valueError "Multiple stars in a list")
    ∧ isSyntaxErr (.valueError "Multiple stars in a list") = false
    ∧ str2pattern "[*a, *b]" = .error (.visitError .assertionError) := by
  refine ⟨?_, by rfl, by rfl⟩
  simp only [ast2pattern]
  exact astSeqLoop_two_stars pres a b rest [] []
